import Mathlib

/-
Shallow embedding of the RAGAS synthetic-data pipeline
(src/lib/ragas/langgraph-implementation.ts, class RAGASLangGraph) together
with the data model from src/types.  The TypeScript code drives an LLM
(ChatOpenAI) through six sequential stages over a shared state record.

Modelling conventions:
- The LLM collaborator (prompt -> completion) is an arbitrary function
  String -> Except String String; a rejected promise / thrown error at a
  call site is the Except.error branch.
- uuidv4() is modelled as an opaque supply Nat -> String indexed by the
  loop position of the call inside a stage (no claim depends on id values).
- new Date().toISOString() is modelled as a fixed String from the
  environment (no claim depends on time values).
- JavaScript numbers holding the fixed heuristic scores (5.0, 7.0, 8.0,
  0.85, 0.8) are modelled as rationals; no arithmetic is performed on them.
- JavaScript string indices (UTF-16 units) are modelled as character
  positions.
- The in-place pushes into three parallel arrays in retrieveContexts are
  rendered as one list of triples that is then projected component-wise.
-/

namespace RAGAS

/-- The text-completion collaborator: one call per prompt, which either
returns the completion text or fails (a rejected promise at the call site). -/
def TextCompletion : Type := String → Except String String

/-- Ambient collaborators of a pipeline run: the LLM, the uuid supply, and
the timestamp source. -/
structure Env where
  llm : TextCompletion
  uuid : Nat → String
  timestamp : String

/-- Input document (LangChain Document): pageContent plus metadata. -/
structure InputDocument where
  pageContent : String
  metadata : List (String × String)
deriving DecidableEq, Repr

/-- ProcessedDocument from src/types. -/
structure ProcessedDocument where
  id : String
  content : String
  metadata : List (String × String)
  initial_questions : List String
deriving DecidableEq, Repr

/-- The evolution_type union: simple | multi_context | reasoning. -/
inductive EvolutionType where
  | simple
  | multi_context
  | reasoning
deriving DecidableEq, Repr

/-- Metadata attached to an EvolvedQuestion. -/
structure QuestionMetadata where
  original_question : Option String := none
  evolution_timestamp : String
  requires_reasoning : Bool := false
  requires_multiple_contexts : Bool := false
deriving DecidableEq, Repr

/-- EvolvedQuestion from src/types. -/
structure EvolvedQuestion where
  id : String
  question : String
  evolution_type : EvolutionType
  complexity_score : ℚ
  source_document_ids : List String
  metadata : QuestionMetadata
deriving DecidableEq, Repr

/-- QuestionAnswer from src/types. -/
structure QuestionAnswer where
  question_id : String
  answer : String
  confidence_score : ℚ
  source_documents : List String
deriving DecidableEq, Repr

/-- QuestionContext from src/types. -/
structure QuestionContext where
  question_id : String
  contexts : List String
  relevance_scores : List ℚ
  context_sources : List String
deriving DecidableEq, Repr

/-- RAGASState from src/types: the shared state threaded through stages. -/
structure RAGASState where
  documents : List InputDocument
  processed_docs : List ProcessedDocument
  evolved_questions : List EvolvedQuestion
  question_answers : List QuestionAnswer
  question_contexts : List QuestionContext
  errors : List String
deriving DecidableEq, Repr

/-- evolution_types_count record inside generation_metadata. -/
structure EvolutionTypesCount where
  simple : Nat
  multi_context : Nat
  reasoning : Nat
deriving DecidableEq, Repr

/-- generation_metadata record of GenerationResult. -/
structure GenerationMetadata where
  total_questions : Nat
  evolution_types_count : EvolutionTypesCount
  processing_errors : List String
  generation_timestamp : String
deriving DecidableEq, Repr

/-- GenerationResult from src/types: the value run() resolves with. -/
structure GenerationResult where
  evolved_questions : List EvolvedQuestion
  question_answers : List QuestionAnswer
  question_contexts : List QuestionContext
  generation_metadata : GenerationMetadata
deriving DecidableEq, Repr

/-- A JavaScript thrown value as observed by a catch clause: either an
Error object carrying a message, or any other value. -/
inductive ThrownValue where
  | error (message : String)
  | value (str : String)
deriving DecidableEq, Repr

/-- The canned fallback question of extractInitialQuestions (lines 147/149). -/
def fallbackQuestion : String := "What is the main topic discussed in this document?"

/-- Header test of extractInitialQuestions (lines 124-133): the trimmed line
matches one of the label regexes Date:/Version:/Author:/License:/Table of
Contents: (case-insensitive), or is only hash marks and trailing blanks, or
is shorter than 10 characters. -/
def isSkippableHeaderLine (rawLine : String) : Bool :=
  let line := rawLine.trim
  let lower := line.toLower
  lower.startsWith "date:" || lower.startsWith "version:" ||
  lower.startsWith "author:" || lower.startsWith "license:" ||
  lower.startsWith "table of contents:" ||
  (line.startsWith "#" && (line.dropWhile (fun c => c = '#')).all Char.isWhitespace) ||
  line.length < 10

/-- The startIndex computed by the loop at lines 123-133: the number of
consecutive skippable lines among the first 10 (the loop breaks at the
first non-skippable line). -/
def headerSkipIndex (contentLines : List String) : Nat :=
  ((contentLines.take 10).takeWhile isSkippableHeaderLine).length

/-- Prompt of extractInitialQuestions after template substitution
(lines 109-114, 139). -/
def extractQuestionsPrompt (content : String) : String :=
  "Based on the following content, generate 3 basic comprehension questions.\nReturn only the questions, one per line, without numbering.\n\nContent: " ++ content

/-- extractInitialQuestions (lines 108-151).  Every completion failure is
caught inside this function (lines 148-150) and answered with the canned
fallback list, so the function is total over every collaborator. -/
def extractInitialQuestions (env : Env) (content : String) : List String :=
  let contentLines := content.splitOn "\n"
  let startIndex := headerSkipIndex contentLines
  let mainContent :=
    if startIndex > 0 then String.intercalate "\n" (contentLines.drop startIndex)
    else content
  match env.llm (extractQuestionsPrompt (mainContent.take 4000)) with
  | Except.error _ => [fallbackQuestion]
  | Except.ok response =>
    let questions :=
      (((response.splitOn "\n").map String.trim).filter
        (fun q => !q.isEmpty && q.endsWith "?")).take 3
    if questions.length > 0 then questions else [fallbackQuestion]

/-- processDocuments stage (lines 86-106).  The per-document catch
(lines 100-102) would append a processing-error string and omit the
document, but extractInitialQuestions never throws (it absorbs every
failure internally), so every input document yields exactly one entry and
errors is left untouched. -/
def processDocuments (env : Env) (state : RAGASState) : RAGASState :=
  let processed_docs := state.documents.enum.map (fun p =>
    { id := "doc_" ++ toString p.1
      content := p.2.pageContent
      metadata := p.2.metadata
      initial_questions := extractInitialQuestions env p.2.pageContent : ProcessedDocument })
  { state with processed_docs := processed_docs }

/-- Prompt of evolveQuestionSimple after template substitution
(lines 185-193, 197-200). -/
def simpleEvolutionPrompt (question context : String) : String :=
  "Evolve the following question to make it more complex and educational.\nAdd constraints, deepen the inquiry, or increase specificity.\n\nOriginal Question: " ++ question ++ "\nContext: " ++ context ++ "\n\nReturn only the evolved question:"

/-- evolveQuestionSimple (lines 184-205): one completion call over the
question and the first 1000 characters of the context; a failure is caught
inside the function (lines 202-204) and returned as null. -/
def evolveQuestionSimple (env : Env) (question context : String) : Option String :=
  match env.llm (simpleEvolutionPrompt question (context.take 1000)) with
  | Except.error _ => none
  | Except.ok response => some response.trim

/-- Loop body of simpleEvolution (lines 160-178) for one (document, seed
question) iteration at loop position p.1: a truthy evolution result
(non-null and non-empty, line 162) yields a new question with fixed
kind/score. -/
def simpleCandidate (env : Env) (p : Nat × (ProcessedDocument × String)) :
    Option EvolvedQuestion :=
  let doc := p.2.1
  let question := p.2.2
  match evolveQuestionSimple env question doc.content with
  | none => none
  | some evolved =>
    if evolved.isEmpty then none
    else some
      { id := env.uuid p.1
        question := evolved
        evolution_type := EvolutionType.simple
        complexity_score := 5
        source_document_ids := [doc.id]
        metadata :=
          { original_question := some question
            evolution_timestamp := env.timestamp } : EvolvedQuestion }

/-- simpleEvolution stage (lines 154-182): for every seed question of every
processed document, in order, attempt one simple evolution and append the
truthy results.  The catch at lines 175-177 would append an error string,
but evolveQuestionSimple never throws, so errors is left untouched. -/
def simpleEvolution (env : Env) (state : RAGASState) : RAGASState :=
  let attempts := state.processed_docs.flatMap
    (fun doc => doc.initial_questions.map (fun q => (doc, q)))
  { state with evolved_questions :=
      state.evolved_questions ++ attempts.enum.filterMap (simpleCandidate env) }

/-- Prompt of evolveQuestionMultiContext after template substitution
(lines 260-269, 273-277). -/
def multiContextPrompt (question context1 context2 : String) : String :=
  "Evolve the following question to require synthesis from both contexts.\nThe evolved question should be answerable only by combining information from both sources.\n\nOriginal Question: " ++ question ++ "\nContext 1: " ++ context1 ++ "\nContext 2: " ++ context2 ++ "\n\nReturn only the evolved question:"

/-- evolveQuestionMultiContext (lines 255-282): one completion call over the
question and the first 800 characters of each context; a failure is caught
inside the function (lines 279-281) and returned as null. -/
def evolveQuestionMultiContext (env : Env) (question context1 context2 : String) :
    Option String :=
  match env.llm (multiContextPrompt question (context1.take 800) (context2.take 800)) with
  | Except.error _ => none
  | Except.ok response => some response.trim

/-- Error message pushed by multiContextEvolution when fewer than 2
documents were processed (line 213). -/
def needTwoDocsError : String := "Need at least 2 documents for multi-context evolution"

/-- Loop body of multiContextEvolution (lines 218-250) for outer index i:
the nested loops pair document i exactly with document i+1 (the inner
index j runs from i+1 below min(i+2, length), so beyond the last adjacent
pair no iteration happens); when the first member of the pair has seed
questions, its first seed question is evolved, and a truthy result yields
a new question with fixed kind/score and both document ids. -/
def multiContextCandidate (env : Env) (docs : List ProcessedDocument) (i : Nat) :
    Option EvolvedQuestion :=
  match docs[i]?, docs[i+1]? with
  | some doc1, some doc2 =>
    match doc1.initial_questions with
    | [] => none
    | q0 :: _ =>
      match evolveQuestionMultiContext env q0 doc1.content doc2.content with
      | none => none
      | some evolved =>
        if evolved.isEmpty then none
        else some
          { id := env.uuid i
            question := evolved
            evolution_type := EvolutionType.multi_context
            complexity_score := 7
            source_document_ids := [doc1.id, doc2.id]
            metadata :=
              { original_question := some q0
                evolution_timestamp := env.timestamp
                requires_multiple_contexts := true } : EvolvedQuestion }
  | _, _ => none

/-- multiContextEvolution stage (lines 208-253).  With fewer than 2
processed documents it only records needTwoDocsError (lines 212-215).
Otherwise it appends the truthy adjacent-pair candidates.  The catch at
lines 245-247 would append an error string, but evolveQuestionMultiContext
never throws, so that branch is unreachable. -/
def multiContextEvolution (env : Env) (state : RAGASState) : RAGASState :=
  if state.processed_docs.length < 2 then
    { state with errors := state.errors ++ [needTwoDocsError] }
  else
    let newQuestions := (List.range state.processed_docs.length).filterMap
      (multiContextCandidate env state.processed_docs)
    { state with evolved_questions := state.evolved_questions ++ newQuestions }

/-- Prompt of evolveQuestionReasoning after template substitution
(lines 329-337, 341-344). -/
def reasoningPrompt (question context : String) : String :=
  "Evolve the following question to require complex reasoning and analysis.\nThe question should test deep understanding, causal reasoning, or critical evaluation.\n\nOriginal Question: " ++ question ++ "\nContext: " ++ context ++ "\n\nReturn only the evolved question:"

/-- evolveQuestionReasoning (lines 328-349): one completion call over the
question and the first 1000 characters of the context; a failure is caught
inside the function (lines 346-348) and returned as null. -/
def evolveQuestionReasoning (env : Env) (question context : String) : Option String :=
  match env.llm (reasoningPrompt question (context.take 1000)) with
  | Except.error _ => none
  | Except.ok response => some response.trim

/-- The source-context search of reasoningEvolution (lines 293-300): the
content of the first processed document whose id occurs in the question's
source_document_ids, or the empty string when none matches. -/
def findSourceContext (processed_docs : List ProcessedDocument)
    (eq : EvolvedQuestion) : String :=
  match processed_docs.find? (fun doc => eq.source_document_ids.contains doc.id) with
  | some doc => doc.content
  | none => ""

/-- Loop body of reasoningEvolution (lines 292-323) for one selected
question at loop position p.1: locate a source context, and when the
context is non-empty (truthiness test, line 302) attempt one reasoning
evolution; a truthy result yields a new question with fixed kind/score,
inheriting the source ids.  The catch at lines 319-321 would append an
error string, but evolveQuestionReasoning never throws. -/
def reasoningCandidate (env : Env) (processed_docs : List ProcessedDocument)
    (p : Nat × EvolvedQuestion) : Option EvolvedQuestion :=
  let eq := p.2
  let sourceContext := findSourceContext processed_docs eq
  if sourceContext.isEmpty then none
  else
    match evolveQuestionReasoning env eq.question sourceContext with
    | none => none
    | some evolved =>
      if evolved.isEmpty then none
      else some
        { id := env.uuid p.1
          question := evolved
          evolution_type := EvolutionType.reasoning
          complexity_score := 8
          source_document_ids := eq.source_document_ids
          metadata :=
            { original_question := some eq.question
              evolution_timestamp := env.timestamp
              requires_reasoning := true } : EvolvedQuestion }

/-- reasoningEvolution stage (lines 285-326): appends the truthy reasoning
candidates of the first 2 accumulated evolved questions. -/
def reasoningEvolution (env : Env) (state : RAGASState) : RAGASState :=
  let newQuestions := (state.evolved_questions.take 2).enum.filterMap
    (reasoningCandidate env state.processed_docs)
  { state with evolved_questions := state.evolved_questions ++ newQuestions }

/-- Prompt of generateAnswer after template substitution
(lines 387-395, 399-402). -/
def answerPrompt (question contexts : String) : String :=
  "Answer the following question based on the provided contexts.\nProvide a comprehensive answer using only the information in the contexts.\n\nQuestion: " ++ question ++ "\nContexts: " ++ contexts ++ "\n\nAnswer:"

/-- generateAnswer (lines 384-407): joins the contexts with blank lines,
truncates to 2000 characters, and issues one completion call; a failure is
caught inside the function (lines 404-406) and returned as null. -/
def generateAnswer (env : Env) (question : String) (contexts : List String) :
    Option String :=
  let combinedContext := (String.intercalate "\n\n" contexts).take 2000
  match env.llm (answerPrompt question combinedContext) with
  | Except.error _ => none
  | Except.ok response => some response.trim

/-- Loop body of generateAnswers (lines 355-379) for one evolved question:
gather the contents of its source documents; a question with no resolvable
source is skipped, and a truthy answer yields one QuestionAnswer with the
fixed confidence score.  The catch at lines 375-377 would append an error
string, but generateAnswer never throws. -/
def answerCandidate (env : Env) (processed_docs : List ProcessedDocument)
    (eq : EvolvedQuestion) : Option QuestionAnswer :=
  let contexts := (processed_docs.filter
    (fun doc => eq.source_document_ids.contains doc.id)).map
      (fun doc => doc.content)
  if contexts.length > 0 then
    match generateAnswer env eq.question contexts with
    | none => none
    | some answer =>
      if answer.isEmpty then none
      else some
        { question_id := eq.id
          answer := answer
          confidence_score := 0.85
          source_documents := eq.source_document_ids : QuestionAnswer }
  else none

/-- generateAnswers stage body: one answer array built from the candidates
of every evolved question, replacing any prior value. -/
def generateAnswers (env : Env) (state : RAGASState) : RAGASState :=
  { state with question_answers :=
      state.evolved_questions.filterMap (answerCandidate env state.processed_docs) }

/-- Metadata test of extractRelevantPassages (lines 454-458): the trimmed
line matches one of the broader label regexes, a hash-prefixed label, a
Context-number / Relevance / Source marker, is empty, or is shorter than
10 characters. -/
def isPassageMetaLine (line : String) : Bool :=
  let lower := line.toLower
  lower.startsWith "date:" || lower.startsWith "version:" ||
  lower.startsWith "author:" || lower.startsWith "license:" ||
  lower.startsWith "table of contents:" || lower.startsWith "executive summary:" ||
  (lower.startsWith "#" &&
    (let rest := ((lower.dropWhile (fun c => c = '#')).dropWhile Char.isWhitespace)
     rest.startsWith "date" || rest.startsWith "version" ||
     rest.startsWith "author" || rest.startsWith "license" ||
     rest.startsWith "table of contents" || rest.startsWith "executive summary")) ||
  (lower.startsWith "context " &&
    (match (lower.drop 8).data with
     | c :: _ => c.isDigit
     | [] => false)) ||
  lower.startsWith "relevance:" || lower.startsWith "source:" ||
  line = "" || line.length < 10

/-- The startIndex scan of extractRelevantPassages (lines 449-464) over the
first 20 lines: a metadata-like trimmed line advances startIndex past
itself; a trimmed line longer than 30 characters without a colon stops the
scan; any other line is passed over without advancing startIndex. -/
def passageScan : List (Nat × String) → Nat → Nat
  | [], acc => acc
  | (i, rawLine) :: rest, acc =>
    let line := rawLine.trim
    if isPassageMetaLine line then passageScan rest (i + 1)
    else if line.length > 30 && !(line.contains ':') then acc
    else passageScan rest acc

/-- startIndex of extractRelevantPassages for a given line list. -/
def passageStartIndex (lines : List String) : Nat :=
  passageScan (lines.take 20).enum 0

/-- Splitter for the regex split on runs of two or more newlines
(line 470): accumulates the current piece until a double newline, then
consumes the whole newline run and starts the next piece. -/
def splitBlankRunsAux : List Char → List Char → List (List Char)
  | [], cur => [cur.reverse]
  | '\n' :: '\n' :: rest, cur =>
    cur.reverse :: splitBlankRunsAux (rest.dropWhile (fun c => c = '\n')) []
  | c :: rest, cur => splitBlankRunsAux rest (c :: cur)
termination_by cs _ => cs.length
decreasing_by
  · simp only [List.length_cons]
    have h := (List.dropWhile_sublist (l := rest) (fun c => c = '\n')).length_le
    omega
  · simp only [List.length_cons]
    omega

/-- String form of the blank-run splitter. -/
def splitOnBlankRuns (s : String) : List String :=
  (splitBlankRunsAux s.data []).map (fun cs => String.mk cs)

/-- The line-grouping fallback of extractRelevantPassages (lines 472-488):
lines longer than 20 trimmed characters are grouped into passages of about
500 characters; a group is flushed once adding a line would exceed 500
characters and the running group already exceeds 100; the final group is
kept when its trimmed length exceeds 50. -/
def buildLinePassages (contentLines : List String) : List String :=
  let r := contentLines.foldl (fun (acc : List String × String) line =>
    let passages := acc.1
    let currentPassage := acc.2
    if currentPassage.length + line.length > 500 && currentPassage.length > 100 then
      (passages ++ [currentPassage.trim], line)
    else
      (passages, if currentPassage.isEmpty then line
                 else currentPassage ++ "\n" ++ line)) ([], "")
  if r.2.trim.length > 50 then r.1 ++ [r.2.trim] else r.1

/-- Fixed 500-character slicing of the raw content for the last fallback of
extractRelevantPassages (lines 504-512). -/
def chunkChars : List Char → List (List Char)
  | [] => []
  | c :: rest => ((c :: rest).take 500) :: chunkChars ((c :: rest).drop 500)
termination_by cs => cs.length
decreasing_by
  simp only [List.length_drop, List.length_cons]
  omega

/-- extractRelevantPassages (lines 443-516): skip leading metadata-like
lines, split into paragraphs on blank-line runs keeping those longer than
50 trimmed characters (truncating beyond 1000 characters with an ellipsis
marker), fall back to ~500-character line groups, then to fixed
500-character slices of the raw content when it exceeds 100 characters,
and return at most the first 3 passages.  The question parameter is unused
(line 443: accepted for future relevance scoring). -/
def extractRelevantPassages (_question content : String) : List String :=
  let lines := content.splitOn "\n"
  let startIndex := passageStartIndex lines
  let mainContent := String.intercalate "\n" (lines.drop startIndex)
  let paragraphs := (splitOnBlankRuns mainContent).filter
    (fun p => p.trim.length > 50)
  let passages :=
    if paragraphs.isEmpty then
      buildLinePassages ((mainContent.splitOn "\n").filter
        (fun l => l.trim.length > 20))
    else
      paragraphs.filterMap (fun para =>
        if para.trim.length > 50 then
          some (if para.length > 1000 then para.take 1000 ++ "..." else para.trim)
        else none)
  let passages2 :=
    if passages.isEmpty && content.length > 100 then
      (chunkChars content.data).filterMap (fun cs =>
        let chunk := String.mk cs
        if chunk.trim.length > 50 then some chunk.trim else none)
    else passages
  passages2.take 3

/-- Loop body of retrieveContexts (lines 413-438) for one evolved question:
collect passages from each referenced processed document (the three
in-lockstep array pushes of lines 422-427 are rendered as one triple list);
a question contributing no passage is omitted (line 430), and the three
parallel arrays of an emitted entry are each truncated to the first 3
elements. -/
def contextCandidate (processed_docs : List ProcessedDocument)
    (eq : EvolvedQuestion) : Option QuestionContext :=
  let triples := (processed_docs.filter
    (fun doc => eq.source_document_ids.contains doc.id)).flatMap
      (fun doc => (extractRelevantPassages eq.question doc.content).map
        (fun passage => (passage, (0.8 : ℚ), doc.id)))
  if triples.length > 0 then
    some
      { question_id := eq.id
        contexts := (triples.map (fun t => t.1)).take 3
        relevance_scores := (triples.map (fun t => t.2.1)).take 3
        context_sources := (triples.map (fun t => t.2.2)).take 3 : QuestionContext }
  else none

/-- retrieveContexts stage body: one context array built from the
candidates of every evolved question, replacing any prior value. -/
def retrieveContexts (_env : Env) (state : RAGASState) : RAGASState :=
  { state with question_contexts :=
      state.evolved_questions.filterMap (contextCandidate state.processed_docs) }

/-- The initial state seeded by run() (lines 520-527). -/
def initialState (documents : List InputDocument) : RAGASState :=
  { documents := documents
    processed_docs := []
    evolved_questions := []
    question_answers := []
    question_contexts := []
    errors := [] }

/-- The graph invocation: the SimpleGraph built by createGraph
(lines 62-83) is a linear chain process_documents -> simple_evolution ->
multi_context_evolution -> reasoning_evolution -> generate_answers ->
retrieve_contexts -> END, whose invoke folds each stage's partial update
into the running state; on this chain it is exactly the sequential
composition of the six stage functions. -/
def graphInvoke (env : Env) (state : RAGASState) : RAGASState :=
  retrieveContexts env
    (generateAnswers env
      (reasoningEvolution env
        (multiContextEvolution env
          (simpleEvolution env
            (processDocuments env state)))))

/-- The result shaping of run() (lines 532-546). -/
def buildResult (env : Env) (result : RAGASState) : GenerationResult :=
  { evolved_questions := result.evolved_questions
    question_answers := result.question_answers
    question_contexts := result.question_contexts
    generation_metadata :=
      { total_questions := result.evolved_questions.length
        evolution_types_count :=
          { simple := (result.evolved_questions.filter
              (fun q => q.evolution_type == EvolutionType.simple)).length
            multi_context := (result.evolved_questions.filter
              (fun q => q.evolution_type == EvolutionType.multi_context)).length
            reasoning := (result.evolved_questions.filter
              (fun q => q.evolution_type == EvolutionType.reasoning)).length }
        processing_errors := result.errors
        generation_timestamp := env.timestamp } }

/-- run() (lines 519-550): seed the state, invoke the graph, and shape the
result.  The embedded stage functions are total, so the graph invocation
always succeeds and run always returns a result. -/
def run (env : Env) (documents : List InputDocument) : GenerationResult :=
  buildResult env (graphInvoke env (initialState documents))

/-- The catch clause of run() (lines 547-549) as a function of the graph
invocation outcome: a resolved invocation is shaped into the result; a
thrown value is re-thrown as a single Error whose message wraps the
original message when the value is an Error object and the literal text
Unknown error otherwise (the thrown value is not stringified). -/
def runCatch (env : Env) (invocation : Except ThrownValue RAGASState) :
    Except String GenerationResult :=
  match invocation with
  | Except.ok result => Except.ok (buildResult env result)
  | Except.error e =>
    Except.error ("Generation failed: " ++
      (match e with
       | ThrownValue.error m => m
       | ThrownValue.value _ => "Unknown error"))

/-- Substring test used to state the containment claims about error
messages: pat occurs contiguously somewhere in s. -/
def containsSub (s pat : String) : Bool :=
  (List.range (s.length + 1)).any
    (fun i => (s.data.drop i).take pat.length = pat.data)

/-! Concrete fixtures used by witnesses and counterexamples. -/

/-- A collaborator whose every completion call throws. -/
def failLLM : TextCompletion := fun _ => Except.error "LLM call failed"

/-- Test environment with the all-failing collaborator. -/
def testEnv : Env :=
  { llm := failLLM
    uuid := fun n => "uuid_" ++ toString n
    timestamp := "2025-01-01T00:00:00.000Z" }

/-- Test environment whose collaborator always completes with a fixed
question text. -/
def okEnv : Env :=
  { llm := fun _ => Except.ok "How does the evolved question deepen the original inquiry?"
    uuid := fun n => "uuid_" ++ toString n
    timestamp := "2025-01-01T00:00:00.000Z" }

/-- A processed document fixture with one seed question. -/
def procDocA : ProcessedDocument :=
  { id := "doc_0"
    content := "Machine learning is a subset of artificial intelligence that focuses on algorithms"
    metadata := []
    initial_questions := ["What is machine learning?"] }

/-- A second processed document fixture with one seed question. -/
def procDocB : ProcessedDocument :=
  { id := "doc_1"
    content := "Deep learning uses neural networks with multiple layers to process data"
    metadata := []
    initial_questions := ["What is deep learning?"] }

/-- A state holding exactly one processed document. -/
def oneDocState : RAGASState :=
  { documents := []
    processed_docs := [procDocA]
    evolved_questions := []
    question_answers := []
    question_contexts := []
    errors := [] }

/-- A state holding exactly two processed documents. -/
def twoDocState : RAGASState :=
  { documents := []
    processed_docs := [procDocA, procDocB]
    evolved_questions := []
    question_answers := []
    question_contexts := []
    errors := [] }

/-! Claim theorems. -/

/-- Claim C9: for the empty input document list, run returns a result whose
evolvedQuestions, questionAnswers, and questionContexts are all empty and
whose generationMetadata.totalQuestions is 0, for every TextCompletion
collaborator. -/
theorem c9_empty_run (env : Env) :
    (run env []).evolved_questions = [] ∧
    (run env []).question_answers = [] ∧
    (run env []).question_contexts = [] ∧
    (run env []).generation_metadata.total_questions = 0 :=
  ⟨rfl, rfl, rfl, rfl⟩

/-- Claim C4: with exactly one processed document, the multi-context
evolution stage appends zero questions, appends exactly one error entry
(the message about needing at least 2 documents), and returns the
previously accumulated evolved questions unchanged. -/
theorem c4_multi_context_needs_two_docs (env : Env) (state : RAGASState)
    (h : state.processed_docs.length = 1) :
    (multiContextEvolution env state).evolved_questions = state.evolved_questions ∧
    (multiContextEvolution env state).errors = state.errors ++ [needTwoDocsError] := by
  have h2 : state.processed_docs.length < 2 := by omega
  constructor <;> simp [multiContextEvolution, if_pos h2]

/-- Witness for claim C4 at a concrete one-document state. -/
theorem c4_witness :
    oneDocState.processed_docs.length = 1 ∧
    ((multiContextEvolution testEnv oneDocState).evolved_questions =
        oneDocState.evolved_questions ∧
      (multiContextEvolution testEnv oneDocState).errors =
        oneDocState.errors ++ [needTwoDocsError]) :=
  ⟨rfl, c4_multi_context_needs_two_docs testEnv oneDocState rfl⟩

/-- Claim C2 as amended: an Error escaping the graph invocation is
re-thrown as exactly one wrapped error whose message is the wrap prefix
followed by the original message; a non-Error thrown value is replaced by
the fixed text Unknown error instead of being stringified. -/
theorem c2_wrapped_error (env : Env) (m v : String) :
    runCatch env (Except.error (ThrownValue.error m)) =
      Except.error ("Generation failed: " ++ m) ∧
    runCatch env (Except.error (ThrownValue.value v)) =
      Except.error "Generation failed: Unknown error" :=
  ⟨rfl, rfl⟩

/-- Counterexample to claim C2 as stated: the thrown string boom is not
stringified into the wrapped message; the caller sees the fixed text
Unknown error and the original text is lost. -/
theorem c2_counterexample :
    runCatch testEnv (Except.error (ThrownValue.value "boom")) =
      Except.error "Generation failed: Unknown error" ∧
    containsSub "Generation failed: Unknown error" "boom" = false :=
  ⟨rfl, by decide⟩

/-- Claim C10: for every input document list and every collaborator,
including the all-failing one, the document-processing stage emits exactly
one processedDocuments entry per input document, because
extractInitialQuestions absorbs every completion failure internally and
returns the canned fallback list, leaving the catch branch of
processDocuments unreachable. -/
theorem c10_one_entry_per_document (env : Env) (state : RAGASState) :
    (processDocuments env state).processed_docs.length = state.documents.length ∧
    ∀ (uuid : Nat → String) (ts msg content : String),
      extractInitialQuestions
        { llm := fun _ => Except.error msg, uuid := uuid, timestamp := ts }
        content = [fallbackQuestion] := by
  constructor
  · simp [processDocuments]
  · intro uuid ts msg content
    rfl

/-- The three per-kind filters partition any evolved-question list, since
evolution_type has exactly the three values simple, multi_context and
reasoning. -/
theorem evolution_type_filter_partition (l : List EvolvedQuestion) :
    (l.filter (fun q => q.evolution_type == EvolutionType.simple)).length +
      (l.filter (fun q => q.evolution_type == EvolutionType.multi_context)).length +
      (l.filter (fun q => q.evolution_type == EvolutionType.reasoning)).length =
      l.length := by
  induction l with
  | nil => rfl
  | cons q t ih =>
    cases hq : q.evolution_type <;>
      simp [List.filter_cons, hq] <;>
      omega

/-- Claim C7: for every run result, generationMetadata.totalQuestions
equals the length of evolvedQuestions, and the three per-kind counts sum
to totalQuestions. -/
theorem c7_metadata_counts (env : Env) (documents : List InputDocument) :
    (run env documents).generation_metadata.total_questions =
      (run env documents).evolved_questions.length ∧
    (run env documents).generation_metadata.evolution_types_count.simple +
        (run env documents).generation_metadata.evolution_types_count.multi_context +
        (run env documents).generation_metadata.evolution_types_count.reasoning =
      (run env documents).generation_metadata.total_questions :=
  ⟨rfl, evolution_type_filter_partition
    (graphInvoke env (initialState documents)).evolved_questions⟩

/-- Claim C1 as amended: a failure inside a single item (the extraction
call, any evolution call, or the answer call) is absorbed at that item and
processing continues with the next one, never aborting the stage; but no
descriptive string is appended to errors for it, because each helper
catches the failure internally (fallback list for extraction, null result
for evolution and answer), leaving the stage-level catch branches that
would append unreachable.  Errors only grow through the multi-context
under-two-documents precondition. -/
theorem c1_per_item_failures_absorbed (env : Env) (state : RAGASState) :
    (processDocuments env state).errors = state.errors ∧
    (processDocuments env state).processed_docs.length = state.documents.length ∧
    (simpleEvolution env state).errors = state.errors ∧
    (reasoningEvolution env state).errors = state.errors ∧
    (generateAnswers env state).errors = state.errors ∧
    (multiContextEvolution env state).errors =
      (if state.processed_docs.length < 2 then state.errors ++ [needTwoDocsError]
       else state.errors) := by
  refine ⟨rfl, ?_, rfl, rfl, rfl, ?_⟩
  · simp [processDocuments]
  · by_cases h2 : state.processed_docs.length < 2 <;>
      simp [multiContextEvolution, h2]

/-- Counterexample to claim C1 as stated: with the all-failing collaborator
the simple-evolution call for the only seed question of each document
fails, yet the stage appends no descriptive string to errors (and no
question); the failure is silently absorbed. -/
theorem c1_counterexample :
    evolveQuestionSimple testEnv "What is machine learning?" procDocA.content = none ∧
    (simpleEvolution testEnv twoDocState).errors = [] ∧
    (simpleEvolution testEnv twoDocState).evolved_questions = [] :=
  ⟨rfl, rfl, rfl⟩

/-- The id pattern doc_0, doc_1, ... of length n. -/
def docIdPattern (n : Nat) : List String :=
  (List.range n).map (fun i => "doc_" ++ toString i)

/-- Later stages never change processed_docs, so the final state carries
the processed documents built by the first stage. -/
theorem graphInvoke_processed_docs (env : Env) (state : RAGASState) :
    (graphInvoke env state).processed_docs =
      (processDocuments env state).processed_docs := by
  by_cases h2 : (processDocuments env state).processed_docs.length < 2 <;>
    simp [graphInvoke, retrieveContexts, generateAnswers, reasoningEvolution,
      multiContextEvolution, simpleEvolution, h2]

/-- Claim C3: for every non-empty input document list, the run produces a
processedDocuments sequence no longer than the input, and the i-th
surviving entry (in original order) has id doc_i. -/
theorem c3_processed_doc_ids (env : Env) (documents : List InputDocument)
    (_hne : documents ≠ []) :
    (graphInvoke env (initialState documents)).processed_docs.length ≤
      documents.length ∧
    (graphInvoke env (initialState documents)).processed_docs.map
        (fun d => d.id) =
      docIdPattern (graphInvoke env (initialState documents)).processed_docs.length := by
  have hpd : (graphInvoke env (initialState documents)).processed_docs =
      documents.enum.map (fun p =>
        { id := "doc_" ++ toString p.1
          content := p.2.pageContent
          metadata := p.2.metadata
          initial_questions := extractInitialQuestions env p.2.pageContent :
            ProcessedDocument }) := by
    rw [graphInvoke_processed_docs]
    rfl
  constructor
  · rw [hpd]
    simp
  · rw [hpd]
    simp only [docIdPattern, List.length_map, List.enum_length]
    rw [List.enum_eq_zip_range, List.map_map]
    show List.map ((fun i => "doc_" ++ toString i) ∘ Prod.fst)
        ((List.range documents.length).zip documents) =
      List.map (fun i => "doc_" ++ toString i) (List.range documents.length)
    rw [← List.map_map, List.map_fst_zip (List.range documents.length) documents
      (by simp)]

/-- A concrete input document fixture. -/
def inputDocA : InputDocument :=
  { pageContent := "Machine learning is a subset of artificial intelligence that focuses on algorithms"
    metadata := [] }

/-- Witness for claim C3 at a concrete one-document input. -/
theorem c3_witness :
    ([inputDocA] : List InputDocument) ≠ [] ∧
    ((graphInvoke testEnv (initialState [inputDocA])).processed_docs.length ≤
        ([inputDocA] : List InputDocument).length ∧
      (graphInvoke testEnv (initialState [inputDocA])).processed_docs.map
          (fun d => d.id) =
        docIdPattern
          (graphInvoke testEnv (initialState [inputDocA])).processed_docs.length) :=
  ⟨by simp, c3_processed_doc_ids testEnv [inputDocA] (by simp)⟩

/-- Claim C5: with at least 2 processed documents, multi-context evolution
pairs document i only with document i+1, and every appended question has
kind multi_context, score 7, the requiresMultipleContexts flag, and source
ids equal to the adjacent pair of document ids whose first member has a
non-empty seed-question list; at most one question arises per adjacent
pair. -/
theorem c5_adjacent_pairing (env : Env) (state : RAGASState)
    (h2 : 2 ≤ state.processed_docs.length) :
    ∃ appended,
      (multiContextEvolution env state).evolved_questions =
        state.evolved_questions ++ appended ∧
      appended.length + 1 ≤ state.processed_docs.length ∧
      appended.Forall (fun q =>
        q.evolution_type = EvolutionType.multi_context ∧
        q.complexity_score = 7 ∧
        q.metadata.requires_multiple_contexts = true ∧
        ∃ i doc1 doc2,
          state.processed_docs[i]? = some doc1 ∧
          state.processed_docs[i+1]? = some doc2 ∧
          doc1.initial_questions ≠ [] ∧
          q.source_document_ids = [doc1.id, doc2.id]) := by
  have hlt : ¬ state.processed_docs.length < 2 := by omega
  refine ⟨(List.range state.processed_docs.length).filterMap
    (multiContextCandidate env state.processed_docs), ?_, ?_, ?_⟩
  · simp [multiContextEvolution, if_neg hlt]
  · obtain ⟨m, hm⟩ : ∃ m, state.processed_docs.length = m + 1 :=
      ⟨state.processed_docs.length - 1, by omega⟩
    have hnone : multiContextCandidate env state.processed_docs m = none := by
      have hoob : state.processed_docs[m+1]? = none :=
        List.getElem?_eq_none (by omega)
      cases hd : state.processed_docs[m]? <;>
        simp [multiContextCandidate, hd, hoob]
    rw [hm, List.range_succ, List.filterMap_append]
    have hle := List.length_filterMap_le
      (multiContextCandidate env state.processed_docs) (List.range m)
    simp only [List.length_range] at hle
    simp [hnone]
    omega
  · rw [List.forall_iff_forall_mem]
    intro q hq
    rw [List.mem_filterMap] at hq
    obtain ⟨i, _hi, hf⟩ := hq
    unfold multiContextCandidate at hf
    split at hf
    case _ doc1 doc2 h1 hsucc =>
      split at hf
      · exact absurd hf (by simp)
      case _ q0 rest hq0 =>
        split at hf
        · exact absurd hf (by simp)
        case _ evolved heval =>
          split at hf
          · exact absurd hf (by simp)
          · obtain rfl := Option.some.inj hf
            refine ⟨rfl, rfl, rfl, i, doc1, doc2, h1, hsucc, ?_, rfl⟩
            simp [hq0]
    case _ hno =>
      exact absurd hf (by simp)

/-- Witness for claim C5 at a concrete two-document state. -/
theorem c5_witness :
    2 ≤ twoDocState.processed_docs.length ∧
    (∃ appended,
      (multiContextEvolution okEnv twoDocState).evolved_questions =
        twoDocState.evolved_questions ++ appended ∧
      appended.length + 1 ≤ twoDocState.processed_docs.length ∧
      appended.Forall (fun q =>
        q.evolution_type = EvolutionType.multi_context ∧
        q.complexity_score = 7 ∧
        q.metadata.requires_multiple_contexts = true ∧
        ∃ i doc1 doc2,
          twoDocState.processed_docs[i]? = some doc1 ∧
          twoDocState.processed_docs[i+1]? = some doc2 ∧
          doc1.initial_questions ≠ [] ∧
          q.source_document_ids = [doc1.id, doc2.id])) :=
  ⟨by decide, c5_adjacent_pairing okEnv twoDocState (by decide)⟩

/-- Claim C6: the reasoning stage selects only the first 2 accumulated
evolved questions, and every appended question has kind reasoning, score
8, the requiresReasoning flag, inherits the selected question's source
ids, and its text is the reasoning evolution of the selected question over
the content of a processed document referenced by those ids. -/
theorem c6_reasoning_selection (env : Env) (state : RAGASState) :
    ∃ appended,
      (reasoningEvolution env state).evolved_questions =
        state.evolved_questions ++ appended ∧
      appended.length ≤ 2 ∧
      appended.Forall (fun q =>
        q.evolution_type = EvolutionType.reasoning ∧
        q.complexity_score = 8 ∧
        q.metadata.requires_reasoning = true ∧
        ∃ eq, eq ∈ state.evolved_questions.take 2 ∧
          q.source_document_ids = eq.source_document_ids ∧
          evolveQuestionReasoning env eq.question
            (findSourceContext state.processed_docs eq) = some q.question ∧
          ∃ doc, doc ∈ state.processed_docs ∧
            eq.source_document_ids.contains doc.id = true ∧
            findSourceContext state.processed_docs eq = doc.content) := by
  refine ⟨(state.evolved_questions.take 2).enum.filterMap
    (reasoningCandidate env state.processed_docs), ?_, ?_, ?_⟩
  · simp [reasoningEvolution]
  · have hle := List.length_filterMap_le
      (reasoningCandidate env state.processed_docs)
      (state.evolved_questions.take 2).enum
    simp only [List.enum_length, List.length_take] at hle
    omega
  · rw [List.forall_iff_forall_mem]
    intro q hq
    rw [List.mem_filterMap] at hq
    obtain ⟨⟨i, eq⟩, hmem, hf⟩ := hq
    have heq_mem : eq ∈ state.evolved_questions.take 2 := by
      have hget := List.mem_enum_iff_getElem?.mp hmem
      exact List.getElem?_mem hget
    simp only [reasoningCandidate] at hf
    split at hf
    · exact absurd hf (by simp)
    · rename_i hnemp
      split at hf
      · exact absurd hf (by simp)
      case _ evolved heval =>
        split at hf
        · exact absurd hf (by simp)
        · obtain rfl := Option.some.inj hf
          refine ⟨rfl, rfl, rfl, eq, heq_mem, rfl, heval, ?_⟩
          cases hfind : state.processed_docs.find?
              (fun doc => eq.source_document_ids.contains doc.id) with
          | none =>
            rw [show findSourceContext state.processed_docs eq = "" from
              by rw [findSourceContext, hfind]] at hnemp
            exact absurd hnemp (by decide)
          | some doc =>
            have hp := List.find?_some hfind
            exact ⟨doc, List.mem_of_find?_eq_some hfind, hp,
              by rw [findSourceContext, hfind]⟩

/-- Claim C8: every entry the context-retrieval stage emits has its three
parallel arrays of identical length, that length is at most 3, and no
entry has empty arrays (a question with zero extracted passages is
omitted entirely). -/
theorem c8_parallel_context_arrays (env : Env) (state : RAGASState) :
    ((retrieveContexts env state).question_contexts).Forall (fun qc =>
      qc.contexts.length = qc.relevance_scores.length ∧
      qc.relevance_scores.length = qc.context_sources.length ∧
      qc.contexts.length ≤ 3 ∧
      0 < qc.contexts.length) := by
  rw [List.forall_iff_forall_mem]
  intro qc hqc
  simp only [retrieveContexts] at hqc
  rw [List.mem_filterMap] at hqc
  obtain ⟨eq, _heq, hf⟩ := hqc
  simp only [contextCandidate] at hf
  split at hf
  case _ hpos =>
    obtain rfl := Option.some.inj hf
    refine ⟨by simp, by simp, by simp, ?_⟩
    simp only [List.length_take, List.length_map]
    omega
  case _ =>
    exact absurd hf (by simp)

end RAGAS
